import Mathlib

/-!
Shallow embedding of the vodtool repository (src/vodtool.c and the two
variant programs in src/unnamed/part_000) and proofs about its claims.

The programs are thin CLI wrappers around FFmpeg.  The parts embedded here
are the ones the claims are about:

* the timestamp arithmetic (av_rescale_q with AV_ROUND_NEAR_INF rounding,
  av_compare_ts, and the to_av_timebase helpers of the two variants);
* the option-parsing switch of main (getopt events folded through atoi);
* the PGM writer pgm_save;
* the packet-scan loop of main (lines 181-217 of vodtool.c), with the
  external FFmpeg calls (av_read_frame, avcodec_send_packet,
  avcodec_receive_frame, ...) modelled as an oracle trace of results that
  the environment supplies, since their internals are out of scope.

Machine integers are modelled as unbounded Int; the values involved in the
claims are far below the int64_t range, and the C divisions performed by
av_rescale_rnd only ever see nonnegative dividends and positive divisors,
where C truncating division and Euclidean division coincide.
-/

/-- AV_TIME_BASE, the global tick rate (ticks per second) of FFmpeg. -/
def AV_TIME_BASE : Int := 1000000

/-- AVRational: a rational number num/den, as used for time bases. -/
structure AVRational where
  num : Int
  den : Int
deriving DecidableEq

/-- av_rescale_rnd(a, b, c, AV_ROUND_NEAR_INF): computes a*b/c rounded to
the nearest integer, halfway cases away from zero.  Mirrors the FFmpeg
implementation: for a < 0 it recurses on -a with the same rounding mode,
and for a >= 0 it returns (a*b + c/2)/c with C integer division (which on
the nonnegative operands produced here agrees with Euclidean division). -/
def av_rescale_rnd_near_inf (a b c : Int) : Int :=
  if a < 0 then -((-a * b + c / 2) / c)
  else (a * b + c / 2) / c

/-- av_rescale_q(a, bq, cq) = av_rescale_rnd(a, bq.num*cq.den, cq.num*bq.den,
AV_ROUND_NEAR_INF), as in FFmpeg's mathematics.c. -/
def av_rescale_q (a : Int) (bq cq : AVRational) : Int :=
  av_rescale_rnd_near_inf a (bq.num * cq.den) (cq.num * bq.den)

/-- to_av_timebase of src/vodtool.c lines 64-66: rescales a timestamp from
the given timebase to the global 1/AV_TIME_BASE base. -/
def to_av_timebase (timestamp : Int) (timebase : AVRational) : Int :=
  av_rescale_q timestamp timebase ⟨1, AV_TIME_BASE⟩

/-- to_av_timebase of the third variant (src/unnamed/part_000 lines 216-218):
av_rescale_q(timestamp, {AV_TIME_BASE, 1}, timebase).  Its call sites at
lines 295-296 pass {timescale, duration} as the timebase argument. -/
def to_av_timebase_variant3 (timestamp : Int) (timebase : AVRational) : Int :=
  av_rescale_q timestamp ⟨AV_TIME_BASE, 1⟩ timebase

/-- start_timestamp as computed at src/vodtool.c line 170. -/
def start_timestamp (segment duration timescale : Int) : Int :=
  to_av_timebase segment ⟨duration, timescale⟩

/-- end_timestamp as computed at src/vodtool.c line 171. -/
def end_timestamp (segment duration timescale : Int) : Int :=
  to_av_timebase (segment + 1) ⟨duration, timescale⟩

/-- av_compare_ts(ts_a, tb_a, ts_b, tb_b): exact comparison of the rational
instants ts_a*tb_a and ts_b*tb_b, returning -1, 0 or 1.  This mirrors
FFmpeg's fast path (ts_a*(tb_a.num*tb_b.den) compared with
ts_b*(tb_b.num*tb_a.den)); the overflow slow path decides by the same
exact ordering. -/
def av_compare_ts (ts_a : Int) (tb_a : AVRational) (ts_b : Int) (tb_b : AVRational) : Int :=
  if ts_a * (tb_a.num * tb_b.den) > ts_b * (tb_b.num * tb_a.den) then 1
  else if ts_a * (tb_a.num * tb_b.den) < ts_b * (tb_b.num * tb_a.den) then -1
  else 0

/-- Follows the spec's formula, for the refinement comparison of claim C2:
`timestamp = round(segment_index * duration / timescale * GLOBAL_TICKS_PER_SECOND)`,
i.e. the nearest integer to num*AV_TIME_BASE/den with halves rounded up
(away from zero is the same thing for the nonnegative values concerned):
floor of num*AV_TIME_BASE/den + 1/2. -/
def spec_round (num den : Int) : Int :=
  (2 * num * AV_TIME_BASE + den) / (2 * den)

/-- Bytes of an ASCII string, as written by fprintf. -/
def strBytes (s : String) : List UInt8 :=
  s.toList.map (fun c => UInt8.ofNat c.toNat)

/-- The header fprintf of pgm_save (src/vodtool.c line 76):
fprintf(f, "P5\n%d %d\n%d\n", xsize, ysize, 255). -/
def pgm_header (xsize ysize : Nat) : String :=
  "P5\n" ++ toString xsize ++ " " ++ toString ysize ++ "\n" ++ toString (255 : Nat) ++ "\n"

/-- One fwrite of pgm_save (line 78): xsize bytes starting at buf + i*wrap. -/
def pgm_row (buf : List UInt8) (wrap xsize i : Nat) : List UInt8 :=
  (List.range xsize).map (fun j => buf.getD (i * wrap + j) 0)

/-- The row loop of pgm_save (lines 77-78): rows 0 .. ysize-1 in order. -/
def pgm_rows (buf : List UInt8) (wrap xsize : Nat) : Nat → List UInt8
  | 0 => []
  | n + 1 => pgm_rows buf wrap xsize n ++ pgm_row buf wrap xsize n

/-- pgm_save (src/vodtool.c lines 69-80): the byte content written to the
output file.  The buffer is modelled as a byte list (reads beyond its end,
undefined behaviour in C, default to 0). -/
def pgm_save (buf : List UInt8) (wrap xsize ysize : Nat) : List UInt8 :=
  strBytes (pgm_header xsize ysize) ++ pgm_rows buf wrap xsize ysize

/-- The fields of AVFrame that vodtool reads: pts, width, height, and the
luma plane data[0] with stride linesize[0]. -/
structure AVFrame where
  pts : Int
  width : Nat
  height : Nat
  data : List UInt8
  linesize : Nat
deriving DecidableEq

/-- The fields of AVPacket that vodtool reads. -/
structure AVPacket where
  stream_index : Int
  pts : Int
  dts : Int
deriving DecidableEq

/-- AVERROR(EAGAIN) = -EAGAIN = -11 on Linux: the decoder's
"needs more input" sentinel. -/
def AVERROR_EAGAIN : Int := -11

/-- Oracle results the external FFmpeg library supplies for one iteration of
the scan loop: the av_read_frame return value, the packet contents after
that call (on failure FFmpeg returns the packet blank, but the model leaves
the environment free to choose it), the avcodec_send_packet return value,
and the avcodec_receive_frame return value together with the frame contents
it would deposit on success.  The send/recv fields are only consumed when
the corresponding call is reached. -/
structure IterEv where
  readRet : Int
  pkt : AVPacket
  sendRet : Int
  recvRet : Int
  recvFrame : AVFrame
deriving DecidableEq

/-- How the scan loop of main (src/vodtool.c lines 181-217) ends. -/
inductive LoopOutcome where
  /-- exit(0) at line 212 after pgm_save. -/
  | savedFrame (f : AVFrame)
  /-- exit(1) at line 193, "Could not send packet". -/
  | sendFail
  /-- exit(1) at line 205, "Didn't get frame". -/
  | recvFail
  /-- The while condition ret >= 0 became false: control falls to the end
  of main. -/
  | eofExit
  /-- The oracle trace was exhausted while the loop would continue; an
  artifact of the finite model, not a behaviour of the program. -/
  | ranOut
deriving DecidableEq

/-- Observable effects of a run of the scan loop. -/
structure LoopResult where
  outcome : LoopOutcome
  /-- Packets passed to avcodec_send_packet, in order. -/
  sent : List AVPacket
  /-- Frames returned by avcodec_receive_frame, in order. -/
  delivered : List AVFrame
  /-- Contents of output files written by pgm_save, in order. -/
  outputs : List (List UInt8)
  /-- Messages printed to stderr, in order (format arguments elided except
  where constant). -/
  diags : List String
  /-- Number of avcodec_receive_frame calls made. -/
  recvCalls : Nat
deriving DecidableEq

/-- The scan loop of main, src/vodtool.c lines 181-217, over an oracle
trace of library results.  ret enters holding the avcodec_open2 result.
Each iteration: ret = av_read_frame; packets of other streams are dropped
and the loop continues (re-testing ret >= 0); otherwise the packet is sent
(note: this happens even when av_read_frame failed, since the return value
is not checked before use), a failed send exits, receive-frame follows with
EAGAIN resetting ret to 0, other negative results exiting, and a received
frame is compared by av_compare_ts against start_timestamp in the
1/AV_TIME_BASE base (line 207): on >= 0 it is saved via pgm_save and the
process exits 0, otherwise scanning continues.  tb is the time base of
input_ctx->streams[best]->time_base (the compare at line 207 indexes
streams by packet.stream_index, which equals best there). -/
def scanRun (best startTs : Int) (tb : AVRational) : Int → List IterEv → LoopResult
  | ret, [] =>
    if ret < 0 then ⟨.eofExit, [], [], [], [], 0⟩ else ⟨.ranOut, [], [], [], [], 0⟩
  | ret, ev :: rest =>
    if ret < 0 then ⟨.eofExit, [], [], [], [], 0⟩
    else if ev.pkt.stream_index ≠ best then
      scanRun best startTs tb ev.readRet rest
    else if ev.sendRet < 0 then
      ⟨.sendFail, [ev.pkt], [], [], ["Could not send packet"], 0⟩
    else if ev.recvRet = AVERROR_EAGAIN then
      let r := scanRun best startTs tb 0 rest
      ⟨r.outcome, ev.pkt :: r.sent, r.delivered, r.outputs, r.diags, r.recvCalls + 1⟩
    else if ev.recvRet < 0 then
      ⟨.recvFail, [ev.pkt], [], [], ["Didn't get frame"], 1⟩
    else if 0 ≤ av_compare_ts ev.recvFrame.pts tb startTs ⟨1, AV_TIME_BASE⟩ then
      ⟨.savedFrame ev.recvFrame, [ev.pkt], [ev.recvFrame],
        [pgm_save ev.recvFrame.data ev.recvFrame.linesize ev.recvFrame.width
          ev.recvFrame.height],
        ["saving frame av base timestamp=" ++ toString (to_av_timebase ev.recvFrame.pts tb)],
        1⟩
    else
      let r := scanRun best startTs tb ev.recvRet rest
      ⟨r.outcome, ev.pkt :: r.sent, ev.recvFrame :: r.delivered, r.outputs, r.diags,
        r.recvCalls + 1⟩

/-- C isspace for the default locale, as used by atoi. -/
def isCSpace (c : Char) : Bool :=
  c == ' ' || c == '\t' || c == '\n' || c == '\x0b' || c == '\x0c' || c == '\r'

/-- Digit-accumulation loop of C atoi: consume decimal digits, stop at the
first non-digit. -/
def atoiLoop : List Char → Int → Int
  | [], acc => acc
  | c :: cs, acc =>
    if c.isDigit then atoiLoop cs (acc * 10 + ((c.toNat : Int) - 48)) else acc

/-- C atoi: skip leading whitespace, optional sign, then digits; a string
with no leading digits yields 0.  (Overflow, undefined in C, is not
modelled; the claims only involve small values.) -/
def atoi (s : String) : Int :=
  match s.toList.dropWhile isCSpace with
  | '-' :: rest => -(atoiLoop rest 0)
  | '+' :: rest => atoiLoop rest 0
  | cs => atoiLoop cs 0

/-- One result of getopt_long in the while loop of main (src/vodtool.c
line 107): the option character returned and, for options taking a value,
the optarg string.  getopt_long itself is libc; it returns 'd'/'t'/'s'
with optarg for well-formed uses of those options, and 'h' or '?' for
help or any unknown/ill-formed option, which the switch sends to usage(). -/
inductive OptEvent where
  | dur (optarg : String)
  | tsc (optarg : String)
  | seg (optarg : String)
  | help
deriving DecidableEq

/-- The three option-controlled variables of main (lines 90-92). -/
structure Config where
  duration : Int
  timescale : Int
  segment : Int
deriving DecidableEq

/-- Defaults: duration = 5, timescale = 1, segment = 0. -/
def defaultConfig : Config := ⟨5, 1, 0⟩

/-- The getopt switch of main (src/vodtool.c lines 107-123): each value
option is converted with atoi and stored; 'h'/'?' calls usage(), which
exits 1 (modelled as none). -/
def parseOpts : List OptEvent → Config → Option Config
  | [], cfg => some cfg
  | .dur a :: rest, cfg => parseOpts rest { cfg with duration := atoi a }
  | .tsc a :: rest, cfg => parseOpts rest { cfg with timescale := atoi a }
  | .seg a :: rest, cfg => parseOpts rest { cfg with segment := atoi a }
  | .help :: _, _ => none

/-- The stderr lines printed by usage() (src/vodtool.c lines 6-16), with
the %s command name elided. -/
def usageDiags : List String :=
  ["usage: [options] infile",
   "",
   "Extracts and transcodes the specified segment",
   "Options:",
   "\t-d, --duration\tThe duration in timescale units of each segment.\tDefault Value: 5",
   "\t-t, --timescale\tThe number of units in a second.\tDefault Value: 1",
   "\t-s, --segment\tThe segment to fetch.\tDefault Value:0"]

/-- Oracle results of every external call main makes outside the scan loop,
plus the loop's trace.  Each field corresponds to one call site in
src/vodtool.c, in program order. -/
structure Env where
  /-- Results of the getopt_long loop. -/
  optEvents : List OptEvent
  /-- argc - optind after option parsing. -/
  npositional : Nat
  /-- avformat_open_input return value. -/
  openRet : Int
  /-- avformat_find_stream_info return value. -/
  findInfoRet : Int
  /-- av_find_best_stream for AVMEDIA_TYPE_VIDEO. -/
  bestVideo : Int
  /-- av_find_best_stream for AVMEDIA_TYPE_AUDIO. -/
  bestAudio : Int
  /-- avcodec_find_decoder returned non-NULL. -/
  codecFound : Bool
  /-- avcodec_parameters_to_context return value. -/
  paramsRet : Int
  /-- avcodec_open2 return value. -/
  codecOpenRet : Int
  /-- avformat_seek_file return value. -/
  seekRet : Int
  /-- av_frame_alloc returned non-NULL. -/
  frameAllocOk : Bool
  /-- input_ctx->streams[best_video_stream]->time_base. -/
  streamTb : AVRational
  /-- Per-iteration oracle results for the scan loop. -/
  events : List IterEv
deriving DecidableEq

/-- How the process terminates, one constructor per distinct exit path of
main. -/
inductive MainOutcome where
  | usageExit
  | openFail
  | streamInfoFail
  | noVideoStream
  | noAudioStream
  | noDecoder
  | paramsFail
  | codecOpenFail
  | seekFail
  | sendFail
  | recvFail
  | saved (f : AVFrame)
  /-- The scan loop's while condition became false and control reached the
  closing brace of main; per C99 5.1.2.2.3 this returns status 0. -/
  | scanEof
deriving DecidableEq

/-- The process exit status of each outcome: 0 from exit(0) at line 212 and
from falling off the end of main, 1 from every exit(1). -/
def exitStatus : MainOutcome → Int
  | .saved _ => 0
  | .scanEof => 0
  | _ => 1

/-- Observable result of a whole invocation. -/
structure MainResult where
  outcome : MainOutcome
  diags : List String
  outputs : List (List UInt8)
  /-- Number of avcodec_receive_frame calls made in the loop. -/
  recvCalls : Nat
  /-- The frame pointer passed to every avcodec_receive_frame call was
  NULL (true exactly when av_frame_alloc failed). -/
  frameNull : Bool
deriving DecidableEq

/-- The stderr line of src/vodtool.c line 173:
"start_timestamp=%lld;end_timestamp=%lld". -/
def mainPreDiags (cfg : Config) : List String :=
  ["start_timestamp="
    ++ toString (start_timestamp cfg.segment cfg.duration cfg.timescale)
    ++ ";end_timestamp="
    ++ toString (end_timestamp cfg.segment cfg.duration cfg.timescale)]

/-- The diagnostic of lines 177-179, printed when av_frame_alloc fails;
note the code does not exit there. -/
def allocFailDiags (ok : Bool) : List String :=
  if ok then [] else ["Could not allocate frame"]

/-- The scan loop as main invokes it: video stream index, start timestamp
from the parsed options, the video stream's time base, and ret still
holding the avcodec_open2 result on loop entry. -/
def envScan (env : Env) (cfg : Config) : LoopResult :=
  scanRun env.bestVideo (start_timestamp cfg.segment cfg.duration cfg.timescale)
    env.streamTb env.codecOpenRet env.events

/-- Assembles the invocation result from the scan loop's outcome:
a saved frame exits 0; send/receive failures exit 1; a false while
condition reaches the end of main (exit status 0 by C99). -/
def loopMainResult (env : Env) (cfg : Config) : Option MainResult :=
  match (envScan env cfg).outcome with
  | .ranOut => none
  | .savedFrame f =>
    some ⟨.saved f,
      mainPreDiags cfg ++ allocFailDiags env.frameAllocOk ++ (envScan env cfg).diags,
      (envScan env cfg).outputs, (envScan env cfg).recvCalls, !env.frameAllocOk⟩
  | .sendFail =>
    some ⟨.sendFail,
      mainPreDiags cfg ++ allocFailDiags env.frameAllocOk ++ (envScan env cfg).diags,
      (envScan env cfg).outputs, (envScan env cfg).recvCalls, !env.frameAllocOk⟩
  | .recvFail =>
    some ⟨.recvFail,
      mainPreDiags cfg ++ allocFailDiags env.frameAllocOk ++ (envScan env cfg).diags,
      (envScan env cfg).outputs, (envScan env cfg).recvCalls, !env.frameAllocOk⟩
  | .eofExit =>
    some ⟨.scanEof,
      mainPreDiags cfg ++ allocFailDiags env.frameAllocOk ++ (envScan env cfg).diags,
      (envScan env cfg).outputs, (envScan env cfg).recvCalls, !env.frameAllocOk⟩

/-- main of src/vodtool.c (lines 83-218), phase by phase, over the oracle
environment.  Returns none only when the finite oracle trace is exhausted
mid-loop (a model artifact).  The diagnostics of the library probes
(av_dump_format, av_err2str expansions) are elided; the repository's own
fprintf calls are kept with their constant text. -/
def mainRun (env : Env) : Option MainResult :=
  match parseOpts env.optEvents defaultConfig with
  | none => some ⟨.usageExit, usageDiags, [], 0, false⟩
  | some cfg =>
    if env.npositional ≠ 1 then some ⟨.usageExit, usageDiags, [], 0, false⟩
    else if env.openRet < 0 then some ⟨.openFail, ["Could not open "], [], 0, false⟩
    else if env.findInfoRet < 0 then
      some ⟨.streamInfoFail, ["Could not find codec parameters for "], [], 0, false⟩
    else if env.bestVideo < 0 then
      some ⟨.noVideoStream, ["Could not find stream of type "], [], 0, false⟩
    else if env.bestAudio < 0 then
      some ⟨.noAudioStream, ["Could not find stream of type "], [], 0, false⟩
    else if env.codecFound = false then some ⟨.noDecoder, [], [], 0, false⟩
    else if env.paramsRet < 0 then some ⟨.paramsFail, [], [], 0, false⟩
    else if env.codecOpenRet < 0 then
      some ⟨.codecOpenFail, ["Could not open input codec"], [], 0, false⟩
    else if env.seekRet < 0 then
      some ⟨.seekFail, mainPreDiags cfg ++ ["Could not seek"], [], 0, false⟩
    else loopMainResult env cfg

/-- Unfolding: a negative status at the top of the loop exits immediately. -/
theorem scanRun_eq_eof (best startTs : Int) (tb : AVRational) (ret : Int)
    (evs : List IterEv) (h : ret < 0) :
    scanRun best startTs tb ret evs = ⟨.eofExit, [], [], [], [], 0⟩ := by
  cases evs <;> simp [scanRun, h]

/-- Unfolding: an exhausted oracle trace while the loop would continue. -/
theorem scanRun_eq_ranOut (best startTs : Int) (tb : AVRational) (ret : Int)
    (h : ¬ ret < 0) :
    scanRun best startTs tb ret [] = ⟨.ranOut, [], [], [], [], 0⟩ := by
  simp [scanRun, h]

/-- Unfolding: a packet of another stream is dropped and the loop continues
with the av_read_frame status. -/
theorem scanRun_cons_skipPkt (best startTs : Int) (tb : AVRational) (ret : Int)
    (ev : IterEv) (rest : List IterEv) (h : ¬ ret < 0)
    (hidx : ev.pkt.stream_index ≠ best) :
    scanRun best startTs tb ret (ev :: rest) = scanRun best startTs tb ev.readRet rest := by
  simp [scanRun, h, hidx]

/-- Unfolding: a failed avcodec_send_packet exits 1 with its diagnostic. -/
theorem scanRun_cons_sendFail (best startTs : Int) (tb : AVRational) (ret : Int)
    (ev : IterEv) (rest : List IterEv) (h : ¬ ret < 0)
    (hidx : ev.pkt.stream_index = best) (hs : ev.sendRet < 0) :
    scanRun best startTs tb ret (ev :: rest)
      = ⟨.sendFail, [ev.pkt], [], [], ["Could not send packet"], 0⟩ := by
  simp [scanRun, h, hidx, hs]

/-- Unfolding: an EAGAIN from avcodec_receive_frame resets the status to 0
and the loop continues on the remaining trace. -/
theorem scanRun_cons_eagain (best startTs : Int) (tb : AVRational) (ret : Int)
    (ev : IterEv) (rest : List IterEv) (h : ¬ ret < 0)
    (hidx : ev.pkt.stream_index = best) (hs : ¬ ev.sendRet < 0)
    (hr : ev.recvRet = AVERROR_EAGAIN) :
    scanRun best startTs tb ret (ev :: rest)
      = ⟨(scanRun best startTs tb 0 rest).outcome,
         ev.pkt :: (scanRun best startTs tb 0 rest).sent,
         (scanRun best startTs tb 0 rest).delivered,
         (scanRun best startTs tb 0 rest).outputs,
         (scanRun best startTs tb 0 rest).diags,
         (scanRun best startTs tb 0 rest).recvCalls + 1⟩ := by
  simp [scanRun, h, hidx, hs, hr]

/-- Unfolding: a hard avcodec_receive_frame error exits 1 with its
diagnostic. -/
theorem scanRun_cons_recvFail (best startTs : Int) (tb : AVRational) (ret : Int)
    (ev : IterEv) (rest : List IterEv) (h : ¬ ret < 0)
    (hidx : ev.pkt.stream_index = best) (hs : ¬ ev.sendRet < 0)
    (hr : ev.recvRet ≠ AVERROR_EAGAIN) (hneg : ev.recvRet < 0) :
    scanRun best startTs tb ret (ev :: rest)
      = ⟨.recvFail, [ev.pkt], [], [], ["Didn't get frame"], 1⟩ := by
  simp [scanRun, h, hidx, hs, hr, hneg]

/-- Unfolding: a received frame at or past the start timestamp is saved and
the process exits 0. -/
theorem scanRun_cons_save (best startTs : Int) (tb : AVRational) (ret : Int)
    (ev : IterEv) (rest : List IterEv) (h : ¬ ret < 0)
    (hidx : ev.pkt.stream_index = best) (hs : ¬ ev.sendRet < 0)
    (hr : ev.recvRet ≠ AVERROR_EAGAIN) (hneg : ¬ ev.recvRet < 0)
    (hge : 0 ≤ av_compare_ts ev.recvFrame.pts tb startTs ⟨1, AV_TIME_BASE⟩) :
    scanRun best startTs tb ret (ev :: rest)
      = ⟨.savedFrame ev.recvFrame, [ev.pkt], [ev.recvFrame],
         [pgm_save ev.recvFrame.data ev.recvFrame.linesize ev.recvFrame.width
           ev.recvFrame.height],
         ["saving frame av base timestamp=" ++ toString (to_av_timebase ev.recvFrame.pts tb)],
         1⟩ := by
  simp [scanRun, h, hidx, hs, hr, hneg, hge]

/-- Unfolding: a received frame before the start timestamp is discarded and
the loop continues with the receive status. -/
theorem scanRun_cons_next (best startTs : Int) (tb : AVRational) (ret : Int)
    (ev : IterEv) (rest : List IterEv) (h : ¬ ret < 0)
    (hidx : ev.pkt.stream_index = best) (hs : ¬ ev.sendRet < 0)
    (hr : ev.recvRet ≠ AVERROR_EAGAIN) (hneg : ¬ ev.recvRet < 0)
    (hlt : ¬ 0 ≤ av_compare_ts ev.recvFrame.pts tb startTs ⟨1, AV_TIME_BASE⟩) :
    scanRun best startTs tb ret (ev :: rest)
      = ⟨(scanRun best startTs tb ev.recvRet rest).outcome,
         ev.pkt :: (scanRun best startTs tb ev.recvRet rest).sent,
         ev.recvFrame :: (scanRun best startTs tb ev.recvRet rest).delivered,
         (scanRun best startTs tb ev.recvRet rest).outputs,
         (scanRun best startTs tb ev.recvRet rest).diags,
         (scanRun best startTs tb ev.recvRet rest).recvCalls + 1⟩ := by
  simp [scanRun, h, hidx, hs, hr, hneg, hlt]

/-- Master invariant of the scan loop: either it saves some frame f, in
which case exactly that one pgm file is written, f passes the
av_compare_ts test against the start timestamp, f is the last delivered
frame and every earlier delivered frame fails the test; or it saves
nothing and writes nothing. -/
theorem scanRun_master (best startTs : Int) (tb : AVRational) :
    ∀ (evs : List IterEv) (ret : Int),
      (∃ f, (scanRun best startTs tb ret evs).outcome = .savedFrame f
         ∧ (scanRun best startTs tb ret evs).outputs =
             [pgm_save f.data f.linesize f.width f.height]
         ∧ 0 ≤ av_compare_ts f.pts tb startTs ⟨1, AV_TIME_BASE⟩
         ∧ ∃ pre, (scanRun best startTs tb ret evs).delivered = pre ++ [f]
             ∧ ∀ g ∈ pre, av_compare_ts g.pts tb startTs ⟨1, AV_TIME_BASE⟩ < 0)
      ∨ ((∀ f, (scanRun best startTs tb ret evs).outcome ≠ .savedFrame f)
         ∧ (scanRun best startTs tb ret evs).outputs = []) := by
  intro evs
  induction evs with
  | nil =>
    intro ret
    right
    by_cases h : ret < 0
    · rw [scanRun_eq_eof best startTs tb ret [] h]
      exact ⟨fun f => by simp, rfl⟩
    · rw [scanRun_eq_ranOut best startTs tb ret h]
      exact ⟨fun f => by simp, rfl⟩
  | cons ev rest ih =>
    intro ret
    by_cases h0 : ret < 0
    · right
      rw [scanRun_eq_eof best startTs tb ret (ev :: rest) h0]
      exact ⟨fun f => by simp, rfl⟩
    · by_cases h1 : ev.pkt.stream_index ≠ best
      · rw [scanRun_cons_skipPkt best startTs tb ret ev rest h0 h1]
        exact ih ev.readRet
      · push_neg at h1
        by_cases h2 : ev.sendRet < 0
        · right
          rw [scanRun_cons_sendFail best startTs tb ret ev rest h0 h1 h2]
          exact ⟨fun f => by simp, rfl⟩
        · by_cases h3 : ev.recvRet = AVERROR_EAGAIN
          · rw [scanRun_cons_eagain best startTs tb ret ev rest h0 h1 h2 h3]
            rcases ih 0 with ⟨f, hf, ho, hc, pre, hdel, hp⟩ | ⟨hno, ho⟩
            · exact Or.inl ⟨f, hf, ho, hc, pre, hdel, hp⟩
            · exact Or.inr ⟨hno, ho⟩
          · by_cases h4 : ev.recvRet < 0
            · right
              rw [scanRun_cons_recvFail best startTs tb ret ev rest h0 h1 h2 h3 h4]
              exact ⟨fun f => by simp, rfl⟩
            · by_cases h5 : 0 ≤ av_compare_ts ev.recvFrame.pts tb startTs ⟨1, AV_TIME_BASE⟩
              · left
                rw [scanRun_cons_save best startTs tb ret ev rest h0 h1 h2 h3 h4 h5]
                exact ⟨ev.recvFrame, rfl, rfl, h5, [], rfl, by simp⟩
              · rw [scanRun_cons_next best startTs tb ret ev rest h0 h1 h2 h3 h4 h5]
                rcases ih ev.recvRet with ⟨f, hf, ho, hc, pre, hdel, hp⟩ | ⟨hno, ho⟩
                · left
                  refine ⟨f, hf, ho, hc, ev.recvFrame :: pre, by simp [hdel], ?_⟩
                  intro g hg
                  rcases List.mem_cons.mp hg with hg | hg
                  · rw [hg]; exact lt_of_not_le h5
                  · exact hp g hg
                · exact Or.inr ⟨hno, ho⟩

/-- Key arithmetic fact: for n >= 0 and t > 0, the code's rounding formula
(n + t/2)/t agrees with round-half-up (2n + t)/(2t). -/
theorem code_round_eq_spec_round (n t : Int) (ht : 0 < t) :
    (n + t / 2) / t = (2 * n + t) / (2 * t) := by
  have hdm : t * ((n + t / 2) / t) + (n + t / 2) % t = n + t / 2 :=
    Int.ediv_add_emod (n + t / 2) t
  have hdm2 : 2 * (t / 2) + t % 2 = t := Int.ediv_add_emod t 2
  have hr0 : 0 ≤ (n + t / 2) % t := Int.emod_nonneg _ (ne_of_gt ht)
  have hrt : (n + t / 2) % t < t := Int.emod_lt_of_pos _ ht
  have h20 : 0 ≤ t % 2 := Int.emod_nonneg _ (by norm_num)
  have h22 : t % 2 < 2 := Int.emod_lt_of_pos _ (by norm_num)
  set q := (n + t / 2) / t with hq
  set r := (n + t / 2) % t with hr
  have key : 2 * n + t = (2 * r + t % 2) + q * (2 * t) := by linarith
  rw [key, Int.add_mul_ediv_right _ _ (by positivity : (2 * t) ≠ 0),
    Int.ediv_eq_zero_of_lt (by omega) (by omega)]
  omega

/-- Helper: the general rescale agrees with spec_round on the arguments main
produces. -/
theorem to_av_timebase_eq_spec_round (s d t : Int) (hs : 0 ≤ s) (ht : 0 < t) :
    to_av_timebase s ⟨d, t⟩ = spec_round (s * d) t := by
  show av_rescale_rnd_near_inf s (d * AV_TIME_BASE) (1 * t) = spec_round (s * d) t
  rw [one_mul]
  unfold av_rescale_rnd_near_inf
  rw [if_neg (show ¬ s < 0 by omega)]
  rw [code_round_eq_spec_round (s * (d * AV_TIME_BASE)) t ht]
  show _ = (2 * (s * d) * AV_TIME_BASE + t) / (2 * t)
  congr 1
  ring

/-- Claim C2 (confirmed): for every nonnegative segment index s, positive
duration d and positive timescale t, the start timestamp computed by main
equals round(s*d/t*AV_TIME_BASE), the end timestamp equals
round((s+1)*d/t*AV_TIME_BASE), and in particular duration=5, timescale=1,
segment=12 gives a start of 60*AV_TIME_BASE ticks (60 seconds). -/
theorem claim_C2_timestamp_rounding (s d t : Int) (hs : 0 ≤ s) (hd : 0 < d) (ht : 0 < t) :
    start_timestamp s d t = spec_round (s * d) t ∧
    end_timestamp s d t = spec_round ((s + 1) * d) t ∧
    start_timestamp 12 5 1 = 60 * AV_TIME_BASE := by
  refine ⟨to_av_timebase_eq_spec_round s d t hs ht,
    to_av_timebase_eq_spec_round (s + 1) d t (by omega) ht, by decide⟩

/-- Witness for claim C2 at s=12, d=5, t=1. -/
theorem claim_C2_timestamp_rounding_witness :
    start_timestamp 12 5 1 = spec_round (12 * 5) 1 ∧
    end_timestamp 12 5 1 = spec_round ((12 + 1) * 5) 1 ∧
    start_timestamp 12 5 1 = 60 * AV_TIME_BASE :=
  claim_C2_timestamp_rounding 12 5 1 (by decide) (by decide) (by decide)

/-- Claim C3 (confirmed): the rescaling of vodtool.c,
av_rescale_q(s, {d, t}, {1, AV_TIME_BASE}), coincides with the third
variant's av_rescale_q(s, {AV_TIME_BASE, 1}, {t, d}) for all s, d, t: the
variants differ only in rescaling direction, not in computed timestamps. -/
theorem claim_C3_variants_agree (s d t : Int) :
    to_av_timebase s ⟨d, t⟩ = to_av_timebase_variant3 s ⟨t, d⟩ := by
  show av_rescale_rnd_near_inf s (d * AV_TIME_BASE) (1 * t)
      = av_rescale_rnd_near_inf s (AV_TIME_BASE * d) (t * 1)
  rw [mul_comm d AV_TIME_BASE, mul_comm 1 t]

/-- The rescale result is nonnegative on nonnegative input with a positive
time base. -/
theorem av_rescale_nonneg (a b c : Int) (ha : 0 ≤ a) (hb : 0 ≤ b) (hc : 0 < c) :
    0 ≤ av_rescale_rnd_near_inf a b c := by
  unfold av_rescale_rnd_near_inf
  rw [if_neg (by omega)]
  exact Int.ediv_nonneg
    (add_nonneg (mul_nonneg ha hb) (Int.ediv_nonneg (le_of_lt hc) (by norm_num)))
    (le_of_lt hc)

/-- If av_compare_ts finds pts (in time base tb) at or past st (in the
global base), then the rounded rescale of pts to the global base is also
at or past st: the exact rational comparison is at least as strict as the
rounded one. -/
theorem rescale_ge_of_compare_ge (pts st : Int) (tb : AVRational)
    (hnum : 0 < tb.num) (hden : 0 < tb.den) (hst : 0 ≤ st)
    (h : 0 ≤ av_compare_ts pts tb st ⟨1, AV_TIME_BASE⟩) :
    st ≤ to_av_timebase pts tb := by
  have hATB : (0 : Int) < AV_TIME_BASE := by decide
  have hXY : st * (1 * tb.den) ≤ pts * (tb.num * AV_TIME_BASE) := by
    unfold av_compare_ts at h
    split_ifs at h with h1 h2
    · exact le_of_lt h1
    · omega
    · dsimp only at h1 h2
      omega
  have hpts : 0 ≤ pts := by
    by_contra hneg
    have h1 : pts * (tb.num * AV_TIME_BASE) < 0 :=
      mul_neg_of_neg_of_pos (by omega) (mul_pos hnum hATB)
    have h2 : 0 ≤ st * (1 * tb.den) :=
      mul_nonneg hst (by positivity)
    omega
  show st ≤ av_rescale_rnd_near_inf pts (tb.num * AV_TIME_BASE) (1 * tb.den)
  unfold av_rescale_rnd_near_inf
  rw [if_neg (by omega : ¬ pts < 0)]
  have hden1 : (0 : Int) < 1 * tb.den := by omega
  refine (Int.le_ediv_iff_mul_le hden1).mpr ?_
  have hhalf : 0 ≤ 1 * tb.den / 2 := Int.ediv_nonneg (le_of_lt hden1) (by norm_num)
  omega

/-- The row loop of pgm_save writes exactly ysize * xsize payload bytes. -/
theorem pgm_rows_length (buf : List UInt8) (wrap xsize : Nat) :
    ∀ ysize, (pgm_rows buf wrap xsize ysize).length = ysize * xsize := by
  intro ysize
  induction ysize with
  | zero => simp [pgm_rows]
  | succ n ih =>
    simp only [pgm_rows, List.length_append, ih, pgm_row, List.length_map, List.length_range]
    ring

/-- A non-saving run of the scan loop writes no output file. -/
theorem scanRun_outputs_of_not_saved (best startTs : Int) (tb : AVRational)
    (evs : List IterEv) (ret : Int)
    (h : ∀ f, (scanRun best startTs tb ret evs).outcome ≠ .savedFrame f) :
    (scanRun best startTs tb ret evs).outputs = [] := by
  rcases scanRun_master best startTs tb evs ret with ⟨f, hf, _⟩ | ⟨_, ho⟩
  · exact absurd hf (h f)
  · exact ho

/-- A saving run of the scan loop writes exactly the pgm dump of the saved
frame. -/
theorem scanRun_outputs_of_saved (best startTs : Int) (tb : AVRational)
    (evs : List IterEv) (ret : Int) (f : AVFrame)
    (h : (scanRun best startTs tb ret evs).outcome = .savedFrame f) :
    (scanRun best startTs tb ret evs).outputs
      = [pgm_save f.data f.linesize f.width f.height] := by
  rcases scanRun_master best startTs tb evs ret with ⟨g, hg, ho, _⟩ | ⟨hno, _⟩
  · rw [h] at hg
    obtain rfl := LoopOutcome.savedFrame.inj hg
    exact ho
  · exact absurd h (hno f)

theorem loopMainResult_saved_outputs (env : Env) (cfg : Config) (res : MainResult)
    (h : loopMainResult env cfg = some res) :
    (res.outputs = [] ∧ ∀ f, res.outcome ≠ .saved f)
    ∨ ∃ f, res.outcome = .saved f
        ∧ res.outputs = [pgm_save f.data f.linesize f.width f.height] := by
  unfold loopMainResult at h
  split at h
  · exact absurd h (by simp)
  · rename_i f heq
    obtain rfl := Option.some.inj h
    exact Or.inr ⟨f, rfl, scanRun_outputs_of_saved _ _ _ _ _ f heq⟩
  · rename_i heq
    obtain rfl := Option.some.inj h
    refine Or.inl ⟨scanRun_outputs_of_not_saved _ _ _ _ _ ?_, fun f => by simp⟩
    intro f hf
    exact absurd (heq.symm.trans hf) (by simp)
  · rename_i heq
    obtain rfl := Option.some.inj h
    refine Or.inl ⟨scanRun_outputs_of_not_saved _ _ _ _ _ ?_, fun f => by simp⟩
    intro f hf
    exact absurd (heq.symm.trans hf) (by simp)
  · rename_i heq
    obtain rfl := Option.some.inj h
    refine Or.inl ⟨scanRun_outputs_of_not_saved _ _ _ _ _ ?_, fun f => by simp⟩
    intro f hf
    exact absurd (heq.symm.trans hf) (by simp)

theorem mainRun_saved_outputs (env : Env) (res : MainResult) (h : mainRun env = some res) :
    (res.outputs = [] ∧ ∀ f, res.outcome ≠ .saved f)
    ∨ ∃ f, res.outcome = .saved f
        ∧ res.outputs = [pgm_save f.data f.linesize f.width f.height] := by
  unfold mainRun at h
  split at h
  · obtain rfl := Option.some.inj h
    exact Or.inl ⟨rfl, fun f => by simp⟩
  · rename_i cfg hp
    split_ifs at h with h1 h2 h3 h4 h5 h6 h7 h8 h9
    · obtain rfl := Option.some.inj h
      exact Or.inl ⟨rfl, fun f => by simp⟩
    · obtain rfl := Option.some.inj h
      exact Or.inl ⟨rfl, fun f => by simp⟩
    · obtain rfl := Option.some.inj h
      exact Or.inl ⟨rfl, fun f => by simp⟩
    · obtain rfl := Option.some.inj h
      exact Or.inl ⟨rfl, fun f => by simp⟩
    · obtain rfl := Option.some.inj h
      exact Or.inl ⟨rfl, fun f => by simp⟩
    · obtain rfl := Option.some.inj h
      exact Or.inl ⟨rfl, fun f => by simp⟩
    · obtain rfl := Option.some.inj h
      exact Or.inl ⟨rfl, fun f => by simp⟩
    · obtain rfl := Option.some.inj h
      exact Or.inl ⟨rfl, fun f => by simp⟩
    · obtain rfl := Option.some.inj h
      exact Or.inl ⟨rfl, fun f => by simp⟩
    · exact loopMainResult_saved_outputs env cfg res h

/-- When every phase before the scan loop succeeds, main's result is the
loop phase's result. -/
theorem mainRun_loop_phase (env : Env) (cfg : Config)
    (hp : parseOpts env.optEvents defaultConfig = some cfg)
    (hnp : env.npositional = 1) (ho : 0 ≤ env.openRet) (hi : 0 ≤ env.findInfoRet)
    (hv : 0 ≤ env.bestVideo) (ha : 0 ≤ env.bestAudio) (hc : env.codecFound = true)
    (hpr : 0 ≤ env.paramsRet) (hco : 0 ≤ env.codecOpenRet) (hsk : 0 ≤ env.seekRet) :
    mainRun env = loopMainResult env cfg := by
  simp [mainRun, hp, hnp, hc, not_lt.mpr ho, not_lt.mpr hi, not_lt.mpr hv,
    not_lt.mpr ha, not_lt.mpr hpr, not_lt.mpr hco, not_lt.mpr hsk]

/-- When the first loop iteration reaches a successful send of a video
packet, at least one avcodec_receive_frame call is made. -/
theorem scanRun_recvCalls_pos (best startTs : Int) (tb : AVRational) (ret : Int)
    (ev : IterEv) (rest : List IterEv) (hr : ¬ ret < 0)
    (hidx : ev.pkt.stream_index = best) (hsend : ¬ ev.sendRet < 0) :
    1 ≤ (scanRun best startTs tb ret (ev :: rest)).recvCalls := by
  by_cases h3 : ev.recvRet = AVERROR_EAGAIN
  · rw [scanRun_cons_eagain best startTs tb ret ev rest hr hidx hsend h3]
    exact Nat.succ_le_succ (Nat.zero_le _)
  · by_cases h4 : ev.recvRet < 0
    · rw [scanRun_cons_recvFail best startTs tb ret ev rest hr hidx hsend h3 h4]
    · by_cases h5 : 0 ≤ av_compare_ts ev.recvFrame.pts tb startTs ⟨1, AV_TIME_BASE⟩
      · rw [scanRun_cons_save best startTs tb ret ev rest hr hidx hsend h3 h4 h5]
      · rw [scanRun_cons_next best startTs tb ret ev rest hr hidx hsend h3 h4 h5]
        exact Nat.succ_le_succ (Nat.zero_le _)

/-- Claim C1 (corrected, amended part): when the scan loop saves a frame f,
exactly one output (the pgm dump of f) is written, f is the first
delivered frame whose timestamp passes the exact av_compare_ts test
against the start timestamp (not the rounded-rescale test of the original
claim), every earlier delivered frame fails that exact test, and the run
terminates on the spot. -/
theorem claim_C1_first_matching_frame (best startTs ret : Int) (tb : AVRational)
    (evs : List IterEv) (f : AVFrame)
    (h : (scanRun best startTs tb ret evs).outcome = .savedFrame f) :
    (scanRun best startTs tb ret evs).outputs
        = [pgm_save f.data f.linesize f.width f.height]
    ∧ 0 ≤ av_compare_ts f.pts tb startTs ⟨1, AV_TIME_BASE⟩
    ∧ ∃ pre, (scanRun best startTs tb ret evs).delivered = pre ++ [f]
        ∧ ∀ g ∈ pre, av_compare_ts g.pts tb startTs ⟨1, AV_TIME_BASE⟩ < 0 := by
  rcases scanRun_master best startTs tb evs ret with ⟨g, hg, hout, hc, pre, hdel, hpre⟩ | ⟨hno, _⟩
  · rw [h] at hg
    obtain rfl := LoopOutcome.savedFrame.inj hg
    exact ⟨hout, hc, pre, hdel, hpre⟩
  · exact absurd h (hno f)

/-- Witness for claim C1's amended theorem at a concrete one-frame trace. -/
theorem claim_C1_first_matching_frame_witness :
    (scanRun 0 5000000 ⟨1, 1000000⟩ 0
        [⟨0, ⟨0, 5, 5⟩, 0, 0, ⟨5000000, 2, 1, [7, 7], 2⟩⟩]).outputs
        = [pgm_save [7, 7] 2 2 1]
    ∧ 0 ≤ av_compare_ts 5000000 ⟨1, 1000000⟩ 5000000 ⟨1, AV_TIME_BASE⟩
    ∧ ∃ pre, (scanRun 0 5000000 ⟨1, 1000000⟩ 0
        [⟨0, ⟨0, 5, 5⟩, 0, 0, ⟨5000000, 2, 1, [7, 7], 2⟩⟩]).delivered
          = pre ++ [⟨5000000, 2, 1, [7, 7], 2⟩]
        ∧ ∀ g ∈ pre, av_compare_ts g.pts ⟨1, 1000000⟩ 5000000 ⟨1, AV_TIME_BASE⟩ < 0 :=
  claim_C1_first_matching_frame 0 5000000 0 ⟨1, 1000000⟩
    [⟨0, ⟨0, 5, 5⟩, 0, 0, ⟨5000000, 2, 1, [7, 7], 2⟩⟩] ⟨5000000, 2, 1, [7, 7], 2⟩ (by decide)

/-- Counterexample to claim C1 as stated: with segment=1, duration=2,
timescale=3 the start timestamp is 666667 (rounded up from 666666.67).
The first decoded frame (pts=1 in time base 2/3) has rescaled timestamp
round(666666.67) = 666667 >= start, yet the code discards it, because
av_compare_ts compares exactly: 1*(2/3) s < 666667/1000000 s.  The run
then emits the second frame instead: the emitted frame is not the
earliest decoded frame whose rescaled timestamp is >= start, and a frame
with rescaled timestamp >= start (not < start) was discarded. -/
theorem claim_C1_counterexample :
    (scanRun 0 (start_timestamp 1 2 3) ⟨2, 3⟩ 0
        [⟨0, ⟨0, 1, 1⟩, 0, 0, ⟨1, 1, 1, [9], 1⟩⟩,
         ⟨0, ⟨0, 2, 2⟩, 0, 0, ⟨2, 1, 1, [9], 1⟩⟩]).outcome
      = .savedFrame ⟨2, 1, 1, [9], 1⟩
    ∧ (scanRun 0 (start_timestamp 1 2 3) ⟨2, 3⟩ 0
        [⟨0, ⟨0, 1, 1⟩, 0, 0, ⟨1, 1, 1, [9], 1⟩⟩,
         ⟨0, ⟨0, 2, 2⟩, 0, 0, ⟨2, 1, 1, [9], 1⟩⟩]).delivered
      = [⟨1, 1, 1, [9], 1⟩, ⟨2, 1, 1, [9], 1⟩]
    ∧ start_timestamp 1 2 3 ≤ to_av_timebase 1 ⟨2, 3⟩
    ∧ (⟨1, 1, 1, [9], 1⟩ : AVFrame) ≠ ⟨2, 1, 1, [9], 1⟩ := by decide

/-- Claim C4 (corrected): when av_read_frame returns a negative value, the
subsequent behaviour depends on the unchecked leftover packet: if its
stream index differs from the video stream the loop exits silently with
nothing sent, written or printed; but if it equals the video stream index
the packet is still passed to avcodec_send_packet before the loop can
exit. -/
theorem claim_C4_eof_read (best startTs ret : Int) (tb : AVRational)
    (ev : IterEv) (rest : List IterEv) (hr : 0 ≤ ret) (hread : ev.readRet < 0) :
    (ev.pkt.stream_index ≠ best →
      scanRun best startTs tb ret (ev :: rest) = ⟨.eofExit, [], [], [], [], 0⟩)
    ∧ (ev.pkt.stream_index = best →
      ∃ tl, (scanRun best startTs tb ret (ev :: rest)).sent = ev.pkt :: tl) := by
  constructor
  · intro hidx
    rw [scanRun_cons_skipPkt best startTs tb ret ev rest (by omega) hidx]
    exact scanRun_eq_eof best startTs tb ev.readRet rest hread
  · intro hidx
    by_cases h2 : ev.sendRet < 0
    · rw [scanRun_cons_sendFail best startTs tb ret ev rest (by omega) hidx h2]
      exact ⟨[], rfl⟩
    · by_cases h3 : ev.recvRet = AVERROR_EAGAIN
      · rw [scanRun_cons_eagain best startTs tb ret ev rest (by omega) hidx h2 h3]
        exact ⟨_, rfl⟩
      · by_cases h4 : ev.recvRet < 0
        · rw [scanRun_cons_recvFail best startTs tb ret ev rest (by omega) hidx h2 h3 h4]
          exact ⟨[], rfl⟩
        · by_cases h5 : 0 ≤ av_compare_ts ev.recvFrame.pts tb startTs ⟨1, AV_TIME_BASE⟩
          · rw [scanRun_cons_save best startTs tb ret ev rest (by omega) hidx h2 h3 h4 h5]
            exact ⟨[], rfl⟩
          · rw [scanRun_cons_next best startTs tb ret ev rest (by omega) hidx h2 h3 h4 h5]
            exact ⟨_, rfl⟩

/-- Witness for claim C4's amended theorem: a failed read whose leftover
packet belongs to stream 0 while the video stream is 1 makes the loop
exit silently. -/
theorem claim_C4_eof_read_witness :
    scanRun 1 0 ⟨1, 1000000⟩ 0 [⟨-541478725, ⟨0, 0, 0⟩, 0, 0, ⟨0, 0, 0, [], 0⟩⟩]
      = ⟨.eofExit, [], [], [], [], 0⟩ :=
  (claim_C4_eof_read 1 0 0 ⟨1, 1000000⟩ ⟨-541478725, ⟨0, 0, 0⟩, 0, 0, ⟨0, 0, 0, [], 0⟩⟩ []
    (by decide) (by decide)).1 (by decide)

/-- Counterexample to claim C4 as stated: av_read_frame returns
AVERROR_EOF (-541478725) with video stream index 0; the blank packet
(stream_index 0) is nevertheless passed to avcodec_send_packet — here the
send fails (as it does in drain mode) and the process exits 1 printing
"Could not send packet".  So after end-of-stream a further packet IS sent
to the decoder and a diagnostic IS produced, contrary to the claim. -/
theorem claim_C4_counterexample :
    scanRun 0 0 ⟨1, 1000000⟩ 0 [⟨-541478725, ⟨0, 0, 0⟩, -22, 0, ⟨0, 0, 0, [], 0⟩⟩]
      = ⟨.sendFail, [⟨0, 0, 0⟩], [], [], ["Could not send packet"], 0⟩ := by decide

/-- Claim C7 (confirmed): an AVERROR(EAGAIN) from avcodec_receive_frame is
not treated as an error — the status is reset to 0 and the loop continues
with the next packet — while every other negative receive result
terminates the run with the "Didn't get frame" diagnostic and exit
status 1. -/
theorem claim_C7_eagain_not_error (best startTs ret : Int) (tb : AVRational)
    (ev : IterEv) (rest : List IterEv) (hr : 0 ≤ ret)
    (hidx : ev.pkt.stream_index = best) (hsend : 0 ≤ ev.sendRet) :
    (ev.recvRet = AVERROR_EAGAIN →
      scanRun best startTs tb ret (ev :: rest)
        = ⟨(scanRun best startTs tb 0 rest).outcome,
           ev.pkt :: (scanRun best startTs tb 0 rest).sent,
           (scanRun best startTs tb 0 rest).delivered,
           (scanRun best startTs tb 0 rest).outputs,
           (scanRun best startTs tb 0 rest).diags,
           (scanRun best startTs tb 0 rest).recvCalls + 1⟩)
    ∧ (ev.recvRet < 0 → ev.recvRet ≠ AVERROR_EAGAIN →
      scanRun best startTs tb ret (ev :: rest)
          = ⟨.recvFail, [ev.pkt], [], [], ["Didn't get frame"], 1⟩
        ∧ exitStatus .recvFail = 1) := by
  constructor
  · intro h3
    exact scanRun_cons_eagain best startTs tb ret ev rest (by omega) hidx (by omega) h3
  · intro h4 h3
    exact ⟨scanRun_cons_recvFail best startTs tb ret ev rest (by omega) hidx (by omega) h3 h4,
      rfl⟩

/-- Witness for claim C7 at concrete traces: one EAGAIN iteration and one
hard-error iteration. -/
theorem claim_C7_eagain_not_error_witness :
    scanRun 0 0 ⟨1, 1000000⟩ 0 [⟨0, ⟨0, 1, 1⟩, 0, -11, ⟨0, 0, 0, [], 0⟩⟩]
      = ⟨(scanRun 0 0 ⟨1, 1000000⟩ 0 []).outcome,
         (⟨0, 1, 1⟩ : AVPacket) :: (scanRun 0 0 ⟨1, 1000000⟩ 0 []).sent,
         (scanRun 0 0 ⟨1, 1000000⟩ 0 []).delivered,
         (scanRun 0 0 ⟨1, 1000000⟩ 0 []).outputs,
         (scanRun 0 0 ⟨1, 1000000⟩ 0 []).diags,
         (scanRun 0 0 ⟨1, 1000000⟩ 0 []).recvCalls + 1⟩
    ∧ (scanRun 0 0 ⟨1, 1000000⟩ 0 [⟨0, ⟨0, 1, 1⟩, 0, -5, ⟨0, 0, 0, [], 0⟩⟩]
          = ⟨.recvFail, [⟨0, 1, 1⟩], [], [], ["Didn't get frame"], 1⟩
        ∧ exitStatus .recvFail = 1) :=
  ⟨(claim_C7_eagain_not_error 0 0 0 ⟨1, 1000000⟩ ⟨0, ⟨0, 1, 1⟩, 0, -11, ⟨0, 0, 0, [], 0⟩⟩ []
      (by decide) (by decide) (by decide)).1 (by decide),
   (claim_C7_eagain_not_error 0 0 0 ⟨1, 1000000⟩ ⟨0, ⟨0, 1, 1⟩, 0, -5, ⟨0, 0, 0, [], 0⟩⟩ []
      (by decide) (by decide) (by decide)).2 (by decide) (by decide)⟩

/-- Claim C5 (corrected): the exit status is always 0 or 1; it is 0 exactly
when a qualifying frame was saved OR when the scan loop reached
end-of-stream without a match (control falls off the end of main, which
returns 0 in C99) — not only in the frame-written case as claimed — and
an output file exists exactly when a frame was saved. -/
theorem claim_C5_exit_status (env : Env) (res : MainResult)
    (h : mainRun env = some res) :
    (exitStatus res.outcome = 0 ∨ exitStatus res.outcome = 1)
    ∧ (exitStatus res.outcome = 0 ↔ (∃ f, res.outcome = .saved f) ∨ res.outcome = .scanEof)
    ∧ (res.outputs ≠ [] ↔ ∃ f, res.outcome = .saved f) := by
  refine ⟨?_, ?_, ?_⟩
  · cases res.outcome <;> simp [exitStatus]
  · cases res.outcome <;> simp [exitStatus]
  · rcases mainRun_saved_outputs env res h with ⟨ho, hns⟩ | ⟨f, hsv, ho⟩
    · rw [ho]
      constructor
      · intro hne
        exact absurd rfl hne
      · rintro ⟨f, hf⟩
        exact absurd hf (hns f)
    · rw [ho, hsv]
      constructor
      · intro _
        exact ⟨f, rfl⟩
      · intro _
        simp

/-- Counterexample to claim C5 as stated: a run whose scan loop hits
end-of-stream (failed read, leftover packet of stream 0 while the video
stream is 1) terminates with exit status 0 although no qualifying frame
was written and no output file exists — refuting "status 0 only if a
frame is written". -/
theorem claim_C5_counterexample :
    mainRun ⟨[], 1, 0, 0, 1, 0, true, 0, 0, 0, true, ⟨1, 1000000⟩,
        [⟨-541478725, ⟨0, 0, 0⟩, 0, 0, ⟨0, 0, 0, [], 0⟩⟩]⟩
      = some ⟨.scanEof, ["start_timestamp=0;end_timestamp=5000000"], [], 0, false⟩
    ∧ exitStatus .scanEof = 0 := by decide

/-- Witness for claim C5's amended theorem at a successful concrete run. -/
theorem claim_C5_exit_status_witness :
    (exitStatus (MainOutcome.saved ⟨0, 3, 1, [1, 2, 3], 3⟩) = 0
      ∨ exitStatus (MainOutcome.saved ⟨0, 3, 1, [1, 2, 3], 3⟩) = 1)
    ∧ (exitStatus (MainOutcome.saved ⟨0, 3, 1, [1, 2, 3], 3⟩) = 0
        ↔ (∃ f, MainOutcome.saved ⟨0, 3, 1, [1, 2, 3], 3⟩ = MainOutcome.saved f)
          ∨ MainOutcome.saved ⟨0, 3, 1, [1, 2, 3], 3⟩ = MainOutcome.scanEof)
    ∧ ([pgm_save [1, 2, 3] 3 3 1] ≠ []
        ↔ ∃ f, MainOutcome.saved ⟨0, 3, 1, [1, 2, 3], 3⟩ = MainOutcome.saved f) :=
  claim_C5_exit_status
    ⟨[], 1, 0, 0, 0, 1, true, 0, 0, 0, true, ⟨1, 1000000⟩,
      [⟨0, ⟨0, 0, 0⟩, 0, 0, ⟨0, 3, 1, [1, 2, 3], 3⟩⟩]⟩
    ⟨.saved ⟨0, 3, 1, [1, 2, 3], 3⟩,
      ["start_timestamp=0;end_timestamp=5000000", "saving frame av base timestamp=0"],
      [pgm_save [1, 2, 3] 3 3 1], 1, false⟩
    (by decide)

/-- Claim C6 (confirmed): for a run with timescale 1 and segment s+1 whose
loop saves frame f, the rescaled presentation timestamp of f is at least
the end timestamp of segment s, because the start timestamp computed for
segment s+1 coincides with the end timestamp computed for segment s and
the saved frame's timestamp is at or past the start. -/
theorem claim_C6_monotonic_advancement (env : Env) (cfg : Config) (res : MainResult)
    (s d : Int) (f : AVFrame)
    (hs : 0 ≤ s) (hd : 0 < d)
    (hnum : 0 < env.streamTb.num) (hden : 0 < env.streamTb.den)
    (hp : parseOpts env.optEvents defaultConfig = some cfg)
    (hseg : cfg.segment = s + 1) (hdur : cfg.duration = d) (hts : cfg.timescale = 1)
    (hnp : env.npositional = 1) (ho : 0 ≤ env.openRet) (hi : 0 ≤ env.findInfoRet)
    (hv : 0 ≤ env.bestVideo) (ha : 0 ≤ env.bestAudio) (hc : env.codecFound = true)
    (hpr : 0 ≤ env.paramsRet) (hco : 0 ≤ env.codecOpenRet) (hsk : 0 ≤ env.seekRet)
    (hrun : mainRun env = some res) (hsaved : res.outcome = .saved f) :
    end_timestamp s d 1 ≤ to_av_timebase f.pts env.streamTb
    ∧ start_timestamp (s + 1) d 1 = end_timestamp s d 1 := by
  refine ⟨?_, rfl⟩
  rw [mainRun_loop_phase env cfg hp hnp ho hi hv ha hc hpr hco hsk] at hrun
  unfold loopMainResult at hrun
  split at hrun
  · exact absurd hrun (by simp)
  case _ g heq =>
    obtain rfl := Option.some.inj hrun
    have hgf : g = f := MainOutcome.saved.inj hsaved
    rw [hgf] at heq
    have hstart : start_timestamp cfg.segment cfg.duration cfg.timescale
        = end_timestamp s d 1 := by
      rw [hseg, hdur, hts]
      rfl
    have hend : 0 ≤ end_timestamp s d 1 := by
      show 0 ≤ av_rescale_rnd_near_inf (s + 1) (d * AV_TIME_BASE) (1 * 1)
      exact av_rescale_nonneg (s + 1) (d * AV_TIME_BASE) (1 * 1) (by omega)
        (mul_nonneg (le_of_lt hd) (by decide)) (by norm_num)
    rcases scanRun_master env.bestVideo
        (start_timestamp cfg.segment cfg.duration cfg.timescale) env.streamTb
        env.events env.codecOpenRet with ⟨g', hg, _, hcmp, _⟩ | ⟨hno, _⟩
    · have hg'f : g' = f := LoopOutcome.savedFrame.inj (hg.symm.trans heq)
      rw [hg'f, hstart] at hcmp
      exact rescale_ge_of_compare_ge f.pts (end_timestamp s d 1) env.streamTb
        hnum hden hend hcmp
    · exact absurd heq (hno f)
  all_goals exact absurd hsaved (by obtain rfl := Option.some.inj hrun; simp)

/-- Witness for claim C6 at a concrete run: segment 1 (= 0+1), duration 5,
timescale 1; the saved frame has pts 5000000 in a 1/1000000 time base. -/
theorem claim_C6_monotonic_advancement_witness :
    end_timestamp 0 5 1 ≤ to_av_timebase 5000000 ⟨1, 1000000⟩
    ∧ start_timestamp (0 + 1) 5 1 = end_timestamp 0 5 1 :=
  claim_C6_monotonic_advancement
    ⟨[OptEvent.seg ("1")], 1, 0, 0, 0, 1, true, 0, 0, 0, true, ⟨1, 1000000⟩,
      [⟨0, ⟨0, 5000000, 5000000⟩, 0, 0, ⟨5000000, 2, 2, [7, 7, 7, 7], 2⟩⟩]⟩
    ⟨5, 1, 1⟩
    ⟨.saved ⟨5000000, 2, 2, [7, 7, 7, 7], 2⟩,
      ["start_timestamp=5000000;end_timestamp=10000000",
       "saving frame av base timestamp=5000000"],
      [pgm_save [7, 7, 7, 7] 2 2 2], 1, false⟩
    0 5 ⟨5000000, 2, 2, [7, 7, 7, 7], 2⟩
    (by decide) (by decide) (by decide) (by decide) (by decide) (by decide) (by decide)
    (by decide) (by decide) (by decide) (by decide) (by decide) (by decide) (by decide)
    (by decide) (by decide) (by decide) (by decide) (by decide)

/-- Claim C8 (corrected): the getopt switch converts the value of -d, -t
and -s with atoi and stores it without any validation: a non-numeric
optarg such as "abc" becomes 0 and the process continues (no diagnostic,
no exit).  Only a help/unknown-option result ('h'/'?') reaches usage(),
which prints the usage text and exits 1 — as does a wrong positional
count. -/
theorem claim_C8_malformed_args (s : String) (cfg : Config) (evs : List OptEvent)
    (env : Env) (res : MainResult)
    (hp : parseOpts env.optEvents defaultConfig = none)
    (hres : mainRun env = some res) :
    parseOpts (OptEvent.dur s :: evs) cfg = parseOpts evs { cfg with duration := atoi s }
    ∧ parseOpts (OptEvent.tsc s :: evs) cfg = parseOpts evs { cfg with timescale := atoi s }
    ∧ parseOpts (OptEvent.seg s :: evs) cfg = parseOpts evs { cfg with segment := atoi s }
    ∧ atoi ("abc") = 0
    ∧ parseOpts (OptEvent.help :: evs) cfg = none
    ∧ res.outcome = .usageExit ∧ exitStatus res.outcome = 1 ∧ res.diags = usageDiags := by
  have hmain : res = ⟨.usageExit, usageDiags, [], 0, false⟩ := by
    unfold mainRun at hres
    rw [hp] at hres
    exact (Option.some.inj hres).symm
  rw [hmain]
  exact ⟨rfl, rfl, rfl, by decide, rfl, rfl, rfl, rfl⟩

/-- Witness for claim C8's amended theorem, with a help event causing the
usage exit. -/
theorem claim_C8_malformed_args_witness :
    parseOpts (OptEvent.dur ("zz") :: []) defaultConfig
        = parseOpts [] { defaultConfig with duration := atoi ("zz") }
    ∧ parseOpts (OptEvent.tsc ("zz") :: []) defaultConfig
        = parseOpts [] { defaultConfig with timescale := atoi ("zz") }
    ∧ parseOpts (OptEvent.seg ("zz") :: []) defaultConfig
        = parseOpts [] { defaultConfig with segment := atoi ("zz") }
    ∧ atoi ("abc") = 0
    ∧ parseOpts (OptEvent.help :: []) defaultConfig = none
    ∧ (⟨.usageExit, usageDiags, [], 0, false⟩ : MainResult).outcome = .usageExit
    ∧ exitStatus (⟨.usageExit, usageDiags, [], 0, false⟩ : MainResult).outcome = 1
    ∧ (⟨.usageExit, usageDiags, [], 0, false⟩ : MainResult).diags = usageDiags :=
  claim_C8_malformed_args ("zz") defaultConfig []
    ⟨[OptEvent.help], 1, 0, 0, 0, 1, true, 0, 0, 0, true, ⟨1, 1000000⟩, []⟩
    ⟨.usageExit, usageDiags, [], 0, false⟩
    (by decide) (by decide)

/-- Counterexample to claim C8 as stated: with the malformed argument
-d abc (atoi yields 0) the process does not terminate with status 1; it
runs to completion, saves a frame and exits 0. -/
theorem claim_C8_counterexample :
    mainRun ⟨[OptEvent.dur ("abc")], 1, 0, 0, 0, 1, true, 0, 0, 0, true, ⟨1, 1000000⟩,
        [⟨0, ⟨0, 0, 0⟩, 0, 0, ⟨0, 1, 1, [5], 1⟩⟩]⟩
      = some ⟨.saved ⟨0, 1, 1, [5], 1⟩,
          ["start_timestamp=0;end_timestamp=0", "saving frame av base timestamp=0"],
          [pgm_save [5] 1 1 1], 1, false⟩
    ∧ exitStatus (.saved ⟨0, 1, 1, [5], 1⟩) = 0 := by decide

/-- Claim C9 (confirmed): every output file a run produces is the pgm dump
of the saved frame: the ASCII header "P5\n<width> <height>\n255\n"
followed by exactly width*height payload bytes written row by row. -/
theorem claim_C9_pgm_format (env : Env) (res : MainResult) (file : List UInt8)
    (h : mainRun env = some res) (hf : file ∈ res.outputs) :
    ∃ f, res.outcome = .saved f
      ∧ file = strBytes (pgm_header f.width f.height)
          ++ pgm_rows f.data f.linesize f.width f.height
      ∧ (pgm_rows f.data f.linesize f.width f.height).length = f.width * f.height := by
  rcases mainRun_saved_outputs env res h with ⟨ho, _⟩ | ⟨f, hsv, ho⟩
  · rw [ho] at hf
    exact absurd hf (List.not_mem_nil file)
  · rw [ho, List.mem_singleton] at hf
    refine ⟨f, hsv, ?_, ?_⟩
    · rw [hf]
      rfl
    · rw [pgm_rows_length]
      exact Nat.mul_comm f.height f.width

/-- Witness for claim C9 at a concrete successful run with a 2x2 frame. -/
theorem claim_C9_pgm_format_witness :
    ∃ f, MainOutcome.saved ⟨0, 2, 2, [8, 8, 8, 8], 2⟩ = MainOutcome.saved f
      ∧ pgm_save [8, 8, 8, 8] 2 2 2
          = strBytes (pgm_header f.width f.height)
            ++ pgm_rows f.data f.linesize f.width f.height
      ∧ (pgm_rows f.data f.linesize f.width f.height).length = f.width * f.height :=
  claim_C9_pgm_format
    ⟨[], 1, 0, 0, 0, 1, true, 0, 0, 0, true, ⟨1, 1000000⟩,
      [⟨0, ⟨0, 0, 0⟩, 0, 0, ⟨0, 2, 2, [8, 8, 8, 8], 2⟩⟩]⟩
    ⟨.saved ⟨0, 2, 2, [8, 8, 8, 8], 2⟩,
      ["start_timestamp=0;end_timestamp=5000000", "saving frame av base timestamp=0"],
      [pgm_save [8, 8, 8, 8] 2 2 2], 1, false⟩
    (pgm_save [8, 8, 8, 8] 2 2 2)
    (by decide) (by decide)

/-- Claim C10 (confirmed): when av_frame_alloc fails, main prints
"Could not allocate frame" but does not exit: the run proceeds into the
scan loop with the NULL frame pointer, and avcodec_receive_frame is
called (at least once, given a first video packet whose send succeeds)
with that NULL pointer, instead of the process terminating with status 1
as for the other fatal conditions. -/
theorem claim_C10_alloc_failure (env : Env) (cfg : Config) (res : MainResult)
    (ev : IterEv) (rest : List IterEv)
    (hp : parseOpts env.optEvents defaultConfig = some cfg)
    (hnp : env.npositional = 1) (ho : 0 ≤ env.openRet) (hi : 0 ≤ env.findInfoRet)
    (hv : 0 ≤ env.bestVideo) (ha : 0 ≤ env.bestAudio) (hc : env.codecFound = true)
    (hpr : 0 ≤ env.paramsRet) (hco : 0 ≤ env.codecOpenRet) (hsk : 0 ≤ env.seekRet)
    (halloc : env.frameAllocOk = false)
    (hev : env.events = ev :: rest) (hidx : ev.pkt.stream_index = env.bestVideo)
    (hsend : 0 ≤ ev.sendRet)
    (hrun : mainRun env = some res) :
    "Could not allocate frame" ∈ res.diags
    ∧ res.frameNull = true
    ∧ 1 ≤ res.recvCalls := by
  rw [mainRun_loop_phase env cfg hp hnp ho hi hv ha hc hpr hco hsk] at hrun
  have hrc : 1 ≤ (envScan env cfg).recvCalls := by
    unfold envScan
    rw [hev]
    exact scanRun_recvCalls_pos env.bestVideo
      (start_timestamp cfg.segment cfg.duration cfg.timescale) env.streamTb
      env.codecOpenRet ev rest (by omega) hidx (by omega)
  unfold loopMainResult at hrun
  split at hrun
  · exact absurd hrun (by simp)
  all_goals
    obtain rfl := Option.some.inj hrun
    exact ⟨by simp [allocFailDiags, halloc], by simp [halloc], hrc⟩

/-- Witness for claim C10 at a concrete run with a failed frame
allocation; the run still saves the first frame. -/
theorem claim_C10_alloc_failure_witness :
    "Could not allocate frame" ∈
        ["start_timestamp=0;end_timestamp=5000000", "Could not allocate frame",
         "saving frame av base timestamp=0"]
    ∧ (true = true)
    ∧ (1 : Nat) ≤ 1 :=
  claim_C10_alloc_failure
    ⟨[], 1, 0, 0, 0, 1, true, 0, 0, 0, false, ⟨1, 1000000⟩,
      [⟨0, ⟨0, 0, 0⟩, 0, 0, ⟨0, 1, 1, [4], 1⟩⟩]⟩
    defaultConfig
    ⟨.saved ⟨0, 1, 1, [4], 1⟩,
      ["start_timestamp=0;end_timestamp=5000000", "Could not allocate frame",
       "saving frame av base timestamp=0"],
      [pgm_save [4] 1 1 1], 1, true⟩
    ⟨0, ⟨0, 0, 0⟩, 0, 0, ⟨0, 1, 1, [4], 1⟩⟩ []
    (by decide) (by decide) (by decide) (by decide) (by decide) (by decide) (by decide)
    (by decide) (by decide) (by decide) (by decide) (by decide) (by decide) (by decide)
    (by decide)
